import Mathlib

/-!
Shallow embedding of the AddressBook repository core
(`src/address/address.py` and `src/address/book.py`).

Python optional string fields (`str | None`) are modelled as `Option String`
with `none` standing for Python `None`.  The module-level `MISSING` sentinel
(`_MissingSentinel`, whose `__eq__` always returns `False`) is modelled by a
dedicated constructor of `PyField`.
-/

/-- A Python `str | None` value: `none` is Python `None`. -/
abbrev PyStr := Option String

/-- Python truthiness of a `str | None` value (`if self.field:`):
`None` and the empty string are falsy, every other string is truthy. -/
def truthy (x : PyStr) : Bool :=
  match x with
  | none => false
  | some s => s != ""

/-- The `self.field or None` normalization used in `Address.json`
(address.py lines 190-199): a falsy value becomes `None`. -/
def orNone (x : PyStr) : PyStr :=
  match x with
  | none => none
  | some s => if s = "" then none else some s

/-- An attribute slot that may still hold the module-level `MISSING` sentinel
(`_MissingSentinel`, address.py lines 7-30), or an actual value. -/
inductive PyField (α : Type) where
  | missing : PyField α
  | val : α → PyField α
deriving DecidableEq

/-- The `Address` object (address.py lines 44-262): eight attributes.
`recipient_name` is declared `str` but at runtime can also hold `None`
(e.g. via `from_dict` on a dictionary lacking the key), so every field is a
`PyStr`. -/
structure Address where
  recipient_name : PyStr
  organization_name : PyStr
  building_number : PyStr
  street_name : PyStr
  apartment_number : PyStr
  city : PyStr
  state : PyStr
  postal_code : PyStr
deriving DecidableEq

/-- `Address.__init__` (address.py lines 45-73): `recipient_name` is a
required keyword argument of type `str`; all other fields default to `None`
unless supplied.  Calling it without `recipient_name` is a `TypeError`, which
the signature encodes by making the `String` argument mandatory. -/
def Address.init (recipient_name : String) (organization_name : PyStr)
    (building_number : PyStr) (street_name : PyStr) (apartment_number : PyStr)
    (city : PyStr) (state : PyStr) (postal_code : PyStr) : Address :=
  ⟨some recipient_name, organization_name, building_number, street_name,
   apartment_number, city, state, postal_code⟩

/-- Python `==` on two `str | None` field values: `None == None` is `True`,
`None` versus a string is `False`, strings compare by content. -/
def pyStrEq (x y : PyStr) : Bool := x == y

/-- `Address.__eq__` (address.py lines 102-120): all eight fields compare
equal pairwise with Python `==`. -/
def addrEq (a b : Address) : Bool :=
  pyStrEq a.recipient_name b.recipient_name &&
  pyStrEq a.organization_name b.organization_name &&
  pyStrEq a.building_number b.building_number &&
  pyStrEq a.street_name b.street_name &&
  pyStrEq a.apartment_number b.apartment_number &&
  pyStrEq a.city b.city &&
  pyStrEq a.state b.state &&
  pyStrEq a.postal_code b.postal_code

/-- The `AddressDict` typed dictionary (address.py lines 33-41), as read back
through `dict.get`: a `none` field is a JSON `null` or an absent key. -/
structure AddressDict where
  recipient_name : PyStr
  organization_name : PyStr
  building_number : PyStr
  street_name : PyStr
  apartment_number : PyStr
  city : PyStr
  state : PyStr
  postal_code : PyStr
deriving DecidableEq

/-- `Address.json` (address.py lines 183-199): `recipient_name` is passed
through unchanged; every optional field goes through `self.field or None`. -/
def Address.json (a : Address) : AddressDict :=
  ⟨a.recipient_name, orNone a.organization_name, orNone a.building_number,
   orNone a.street_name, orNone a.apartment_number, orNone a.city,
   orNone a.state, orNone a.postal_code⟩

/-- `Address.to_dict` (address.py lines 241-248): delegates to `json`. -/
def Address.to_dict (a : Address) : AddressDict := a.json

/-- `Address.from_dict` (address.py lines 201-219): reads each key with
`dict.get` (absent key gives `None`) and calls the constructor; no
validation occurs, so a dictionary lacking `recipient_name` still yields an
`Address` whose `recipient_name` is `None`. -/
def Address.from_dict (d : AddressDict) : Address :=
  ⟨d.recipient_name, d.organization_name, d.building_number, d.street_name,
   d.apartment_number, d.city, d.state, d.postal_code⟩

/-- Field equivalence that identifies an empty string with `None`. -/
def valEquiv (x y : PyStr) : Bool := orNone x == orNone y

/-- `Address` field-wise equality with empty string and `None` identified. -/
def addrEquiv (a b : Address) : Bool :=
  valEquiv a.recipient_name b.recipient_name &&
  valEquiv a.organization_name b.organization_name &&
  valEquiv a.building_number b.building_number &&
  valEquiv a.street_name b.street_name &&
  valEquiv a.apartment_number b.apartment_number &&
  valEquiv a.city b.city &&
  valEquiv a.state b.state &&
  valEquiv a.postal_code b.postal_code

theorem orNone_idem (x : PyStr) : orNone (orNone x) = orNone x := by
  cases x with
  | none => rfl
  | some s =>
    by_cases h : s = "" <;> simp [orNone, h]

theorem valEquiv_orNone_left (x : PyStr) : valEquiv (orNone x) x = true := by
  simp [valEquiv, orNone_idem]

/-- C1: for an `Address` built from a valid field set (`recipient_name` a
string), `from_dict (to_dict a)` is field-wise equal to `a` once an empty
string and `None` are treated as equivalent. -/
theorem from_dict_to_dict_roundtrip (a : Address)
    (h : ∃ s : String, a.recipient_name = some s) :
    addrEquiv (Address.from_dict (Address.to_dict a)) a = true := by
  obtain ⟨s, hs⟩ := h
  simp [Address.from_dict, Address.to_dict, Address.json, addrEquiv,
    valEquiv_orNone_left, valEquiv, hs, orNone_idem]

/-- C1 witness: the round trip at a concrete address with an empty-string
optional field. -/
theorem from_dict_to_dict_roundtrip_witness :
    addrEquiv
      (Address.from_dict
        (Address.to_dict ⟨some "John Doe", some "", some "123",
          some "Main St", none, none, none, none⟩))
      ⟨some "John Doe", some "", some "123", some "Main St",
        none, none, none, none⟩ = true :=
  from_dict_to_dict_roundtrip _ ⟨"John Doe", rfl⟩

/-- C6: `from_dict` on a dictionary lacking the `recipient_name` key does not
fail; it returns an `Address` whose `recipient_name` is `None` — whereas
direct construction (`Address.init`) always yields a string there. -/
theorem from_dict_missing_recipient (d : AddressDict)
    (h : d.recipient_name = none) :
    (Address.from_dict d).recipient_name = none ∧
    ∀ (r : String) (o b s ap c st p : PyStr),
      (Address.init r o b s ap c st p).recipient_name ≠ none := by
  constructor
  · simpa [Address.from_dict] using h
  · intro r o b s ap c st p
    simp [Address.init]

/-- C6 witness: the all-absent dictionary. -/
theorem from_dict_missing_recipient_witness :
    (Address.from_dict ⟨none, none, none, none, none, none, none, none⟩).recipient_name
        = none ∧
    ∀ (r : String) (o b s ap c st p : PyStr),
      (Address.init r o b s ap c st p).recipient_name ≠ none :=
  from_dict_missing_recipient ⟨none, none, none, none, none, none, none, none⟩ rfl

/-- The keyword arguments of `Address.edit` (address.py lines 122-133): each
parameter defaults to the `MISSING` sentinel; `none` here means the argument
was omitted, `some v` means the caller passed the value `v` explicitly
(possibly Python `None`, i.e. `some none`). -/
structure EditArgs where
  recipient_name : Option PyStr
  organization_name : Option PyStr
  building_number : Option PyStr
  street_name : Option PyStr
  apartment_number : Option PyStr
  city : Option PyStr
  state : Option PyStr
  postal_code : Option PyStr
deriving DecidableEq

/-- Calling `edit` with no arguments: every parameter left at `MISSING`. -/
def noEdits : EditArgs := ⟨none, none, none, none, none, none, none, none⟩

/-- `Address.edit` (address.py lines 122-169): each field whose argument
`is not MISSING` is overwritten, the rest are untouched; `self` is returned,
so the result is the updated address. -/
def Address.edit (a : Address) (e : EditArgs) : Address :=
  ⟨e.recipient_name.getD a.recipient_name,
   e.organization_name.getD a.organization_name,
   e.building_number.getD a.building_number,
   e.street_name.getD a.street_name,
   e.apartment_number.getD a.apartment_number,
   e.city.getD a.city,
   e.state.getD a.state,
   e.postal_code.getD a.postal_code⟩

/-- C10: `edit` with no arguments changes nothing, and editing exactly one
field sets that field to the given value while leaving the other seven fields
unchanged; the returned address is the mutated one. -/
theorem edit_frame (a : Address) :
    a.edit noEdits = a ∧
    (∀ v, a.edit ⟨some v, none, none, none, none, none, none, none⟩ =
      ⟨v, a.organization_name, a.building_number, a.street_name,
       a.apartment_number, a.city, a.state, a.postal_code⟩) ∧
    (∀ v, a.edit ⟨none, some v, none, none, none, none, none, none⟩ =
      ⟨a.recipient_name, v, a.building_number, a.street_name,
       a.apartment_number, a.city, a.state, a.postal_code⟩) ∧
    (∀ v, a.edit ⟨none, none, some v, none, none, none, none, none⟩ =
      ⟨a.recipient_name, a.organization_name, v, a.street_name,
       a.apartment_number, a.city, a.state, a.postal_code⟩) ∧
    (∀ v, a.edit ⟨none, none, none, some v, none, none, none, none⟩ =
      ⟨a.recipient_name, a.organization_name, a.building_number, v,
       a.apartment_number, a.city, a.state, a.postal_code⟩) ∧
    (∀ v, a.edit ⟨none, none, none, none, some v, none, none, none⟩ =
      ⟨a.recipient_name, a.organization_name, a.building_number, a.street_name,
       v, a.city, a.state, a.postal_code⟩) ∧
    (∀ v, a.edit ⟨none, none, none, none, none, some v, none, none⟩ =
      ⟨a.recipient_name, a.organization_name, a.building_number, a.street_name,
       a.apartment_number, v, a.state, a.postal_code⟩) ∧
    (∀ v, a.edit ⟨none, none, none, none, none, none, some v, none⟩ =
      ⟨a.recipient_name, a.organization_name, a.building_number, a.street_name,
       a.apartment_number, a.city, v, a.postal_code⟩) ∧
    (∀ v, a.edit ⟨none, none, none, none, none, none, none, some v⟩ =
      ⟨a.recipient_name, a.organization_name, a.building_number, a.street_name,
       a.apartment_number, a.city, a.state, v⟩) := by
  refine ⟨?_, ?_, ?_, ?_, ?_, ?_, ?_, ?_, ?_⟩ <;>
    first
      | (cases a; rfl)
      | (intro v; cases a; rfl)

/-- `Address.__str__` (address.py lines 79-97): builds the mailing label by
successive appends, each guarded by the truthiness of its field; the spec
calls this operation `render_text`. -/
def Address.render_text (a : Address) : String :=
  let address := ""
  let address := if truthy a.recipient_name
    then address ++ a.recipient_name.getD "" ++ "\n" else address
  let address := if truthy a.organization_name
    then address ++ a.organization_name.getD "" ++ "\n" else address
  let address := if truthy a.building_number
    then address ++ a.building_number.getD "" ++ " " else address
  let address := if truthy a.street_name
    then address ++ a.street_name.getD "" ++ "\n" else address
  let address := if truthy a.apartment_number
    then address ++ a.apartment_number.getD "" ++ "\n" else address
  let address := if truthy a.city
    then address ++ a.city.getD "" ++ ", " else address
  let address := if truthy a.state
    then address ++ a.state.getD "" ++ " " else address
  let address := if truthy a.postal_code
    then address ++ a.postal_code.getD "" ++ "\n" else address
  address

/-- C3: `render_text` is the concatenation, in the fixed order recipient
name, organization, "building_number street_name", apartment,
"city, state postal_code", of the component pieces, each present exactly when
its field is truthy (non-empty); and on the example address the output begins
with `"John Doe\n123 Main St\n"` (in fact equals it). -/
theorem render_text_order :
    (∀ a : Address, a.render_text =
      (if truthy a.recipient_name then a.recipient_name.getD "" ++ "\n" else "") ++
      (if truthy a.organization_name then a.organization_name.getD "" ++ "\n" else "") ++
      (if truthy a.building_number then a.building_number.getD "" ++ " " else "") ++
      (if truthy a.street_name then a.street_name.getD "" ++ "\n" else "") ++
      (if truthy a.apartment_number then a.apartment_number.getD "" ++ "\n" else "") ++
      (if truthy a.city then a.city.getD "" ++ ", " else "") ++
      (if truthy a.state then a.state.getD "" ++ " " else "") ++
      (if truthy a.postal_code then a.postal_code.getD "" ++ "\n" else "")) ∧
    ∃ t : String,
      (Address.init "John Doe" none (some "123") (some "Main St")
          none none none none).render_text = "John Doe\n123 Main St\n" ++ t := by
  constructor
  · intro a
    simp only [Address.render_text]
    by_cases h1 : truthy a.recipient_name <;>
      by_cases h2 : truthy a.organization_name <;>
        by_cases h3 : truthy a.building_number <;>
          by_cases h4 : truthy a.street_name <;>
            by_cases h5 : truthy a.apartment_number <;>
              by_cases h6 : truthy a.city <;>
                by_cases h7 : truthy a.state <;>
                  by_cases h8 : truthy a.postal_code <;>
      simp [h1, h2, h3, h4, h5, h6, h7, h8, String.append_assoc]
  · exact ⟨"", by decide⟩

/-- The `AddressBook` object (book.py lines 28-150).  The private attributes
`__book_holder_name` and `__book_holder_id` start out as the `MISSING`
sentinel; the name setter stores a string (a reload from file can also store
`None`), the id setter an integer (or `None` on reload), hence the `PyField`
wrappers.  The `set` of addresses is modelled as the list of its distinct
members. -/
structure AddressBook where
  book_holder_name : PyField PyStr
  book_holder_id : PyField (Option Int)
  addresses : List Address
deriving DecidableEq

/-- `AddressBook.__init__` (book.py lines 29-40): both holder attributes are
`MISSING` and the address set is empty. -/
def AddressBook.init : AddressBook := ⟨.missing, .missing, []⟩

/-- Python `==` between two book-holder-id slots: the `MISSING` sentinel
compares unequal to everything (including itself, `_MissingSentinel.__eq__`
returns `False`); two stored values compare as Python values (`None == None`
is `True`, integers by value). -/
def pyIdEq : PyField (Option Int) → PyField (Option Int) → Bool
  | .missing, _ => false
  | _, .missing => false
  | .val a, .val b => a == b

/-- `AddressBook.__eq__` (book.py lines 74-77): compares only the
`book_holder_id` slots with Python `==`. -/
def bookEq (b1 b2 : AddressBook) : Bool :=
  pyIdEq b1.book_holder_id b2.book_holder_id

/-- Membership of an address in the stored set, by Python value equality
(`Address.__hash__` is consistent with `Address.__eq__`, so `set` membership
reduces to `==` against the members). -/
def addrMem (a : Address) (l : List Address) : Bool :=
  l.any (fun x => addrEq x a)

/-- `AddressBook.add_address` (book.py lines 60-62): `set.add` — a no-op when
a value-equal member already exists, otherwise the address joins the set. -/
def AddressBook.add_address (b : AddressBook) (a : Address) : AddressBook :=
  if addrMem a b.addresses then b
  else ⟨b.book_holder_name, b.book_holder_id, b.addresses ++ [a]⟩

/-- Removing the first value-equal occurrence from the member list. -/
def removeFirst : List Address → Address → List Address
  | [], _ => []
  | x :: xs, a => if addrEq x a then xs else x :: removeFirst xs a

/-- `AddressBook.remove_address` (book.py lines 64-66): `set.remove` — raises
`KeyError` (modelled as `Except.error`) when no value-equal member exists,
otherwise removes that member. -/
def AddressBook.remove_address (b : AddressBook) (a : Address) :
    Except Unit AddressBook :=
  if addrMem a b.addresses then
    .ok ⟨b.book_holder_name, b.book_holder_id, removeFirst b.addresses a⟩
  else .error ()

/-- `AddressBook.__len__` (book.py lines 79-80), the spec's `count()`. -/
def AddressBook.count (b : AddressBook) : Nat := b.addresses.length

/-- C2: two books are Python-equal iff their `book_holder_id` slots are
Python-equal — also for freshly constructed books, whose `MISSING` ids
compare unequal (the sentinel equals nothing, so neither do the books) —
and the holder name and the address contents play no role. -/
theorem book_eq_iff_holder_id (b1 b2 : AddressBook) :
    (bookEq b1 b2 = pyIdEq b1.book_holder_id b2.book_holder_id) ∧
    (∀ (n1 n2 : PyField PyStr) (l1 l2 : List Address),
      bookEq ⟨n1, b1.book_holder_id, l1⟩ ⟨n2, b2.book_holder_id, l2⟩ =
        bookEq b1 b2) ∧
    (pyIdEq PyField.missing PyField.missing = false ∧
      bookEq AddressBook.init AddressBook.init = false) := by
  refine ⟨rfl, fun n1 n2 l1 l2 => rfl, rfl, rfl⟩

/-- The `AddressBookDict` typed dictionary (book.py lines 22-26), i.e. the
parsed JSON file: `name` is a string or null, `id` an integer or null (the
`JsonEncoder`, book.py lines 15-19, serializes the `MISSING` sentinel as
null), `addresses` a list of address records. -/
structure AddressBookDict where
  name : PyStr
  id : Option Int
  addresses : List AddressDict
deriving DecidableEq

/-- `AddressBook.from_file` (book.py lines 125-150), with the file system
abstracted to the parsed contents at the path: `none` when no file exists
(the `os.path.exists` check fails), `some d` for a well-formed JSON file.
On a missing file a fresh `cls()` is returned; otherwise holder name and id
are assigned from the file and each address record is rebuilt
(`Address(**address)`, identical to `from_dict` since every record carries
all eight keys) and added via `add_address`. -/
def AddressBook.from_file (contents : Option AddressBookDict) : AddressBook :=
  match contents with
  | none => AddressBook.init
  | some d =>
    d.addresses.foldl (fun bk ad => bk.add_address (Address.from_dict ad))
      ⟨.val d.name, .val d.id, []⟩

/-- C8: `from_file` on a non-existent path returns a fresh empty book —
holder name and id both still the unset sentinel, zero addresses — and does
not raise (the function is total on that branch). -/
theorem from_file_missing_file :
    AddressBook.from_file none = AddressBook.init ∧
    (AddressBook.from_file none).count = 0 ∧
    (AddressBook.from_file none).book_holder_name = PyField.missing ∧
    (AddressBook.from_file none).book_holder_id = PyField.missing :=
  ⟨rfl, rfl, rfl, rfl⟩

theorem addrEq_refl (a : Address) : addrEq a a = true := by
  simp [addrEq, pyStrEq]

/-- C9: adding a value-equal address to a book that already holds one is a
silent no-op; starting from an empty book, two adds of value-equal addresses
leave the count at exactly 1. -/
theorem add_twice_count_one (b : AddressBook) (a a2 : Address)
    (h0 : b.addresses = []) (h : addrEq a a2 = true) :
    (b.add_address a).add_address a2 = b.add_address a ∧
    ((b.add_address a).add_address a2).count = 1 := by
  have h1 : b.add_address a = ⟨b.book_holder_name, b.book_holder_id, [a]⟩ := by
    simp [AddressBook.add_address, addrMem, h0]
  have h2 : (b.add_address a).add_address a2 = b.add_address a := by
    rw [h1]
    simp [AddressBook.add_address, addrMem, h]
  exact ⟨h2, by rw [h2, h1]; rfl⟩

/-- C9 witness: the same address object added twice to a fresh book. -/
theorem add_twice_count_one_witness :
    (AddressBook.init.add_address
        (Address.init "Ritik" none none none none none none none)).add_address
        (Address.init "Ritik" none none none none none none none) =
      AddressBook.init.add_address
        (Address.init "Ritik" none none none none none none none) ∧
    ((AddressBook.init.add_address
        (Address.init "Ritik" none none none none none none none)).add_address
        (Address.init "Ritik" none none none none none none none)).count = 1 :=
  add_twice_count_one AddressBook.init _ _ rfl
    (addrEq_refl (Address.init "Ritik" none none none none none none none))

theorem removeFirst_length (l : List Address) (a : Address)
    (h : addrMem a l = true) :
    (removeFirst l a).length + 1 = l.length := by
  induction l with
  | nil => simp [addrMem] at h
  | cons x xs ih =>
    by_cases hx : addrEq x a
    · simp [removeFirst, hx]
    · simp [addrMem, hx] at h
      simp [removeFirst, hx, ih (by simpa [addrMem] using h)]

/-- C7: removing an address with no value-equal member fails with the
not-found error and (the book being returned only on success) leaves the
contents untouched; removing one with a value-equal member succeeds and
decreases `count()` by exactly 1, holder identity untouched. -/
theorem remove_address_contract (b : AddressBook) (a : Address) :
    (addrMem a b.addresses = false → b.remove_address a = Except.error ()) ∧
    (addrMem a b.addresses = true →
      ∃ b2 : AddressBook, b.remove_address a = Except.ok b2 ∧
        b2.count + 1 = b.count ∧
        b2.book_holder_name = b.book_holder_name ∧
        b2.book_holder_id = b.book_holder_id) := by
  constructor
  · intro h
    simp [AddressBook.remove_address, h]
  · intro h
    refine ⟨⟨b.book_holder_name, b.book_holder_id, removeFirst b.addresses a⟩,
      ?_, ?_, rfl, rfl⟩
    · simp [AddressBook.remove_address, h]
    · exact removeFirst_length b.addresses a h

/-- C7 witness: removing from an empty book fails; removing the sole member
of a one-element book succeeds and brings the count from 1 to 0. -/
theorem remove_address_contract_witness :
    AddressBook.init.remove_address
        (Address.init "Ritik" none none none none none none none) =
      Except.error () ∧
    ∃ b2 : AddressBook,
      (AddressBook.init.add_address
          (Address.init "Ritik" none none none none none none none)).remove_address
          (Address.init "Ritik" none none none none none none none) =
        Except.ok b2 ∧
      b2.count + 1 =
        (AddressBook.init.add_address
          (Address.init "Ritik" none none none none none none none)).count :=
  ⟨(remove_address_contract AddressBook.init _).1 (by decide),
    ((remove_address_contract
        (AddressBook.init.add_address
          (Address.init "Ritik" none none none none none none none)) _).2
      (by decide)).elim (fun b2 hb => ⟨b2, hb.1, hb.2.1⟩)⟩

/-- Lexicographic order on character lists by code point — Python's `<=` on
strings. -/
def charListLe : List Char → List Char → Bool
  | [], _ => true
  | _ :: _, [] => false
  | x :: xs, y :: ys => if x = y then charListLe xs ys else decide (x < y)

/-- Python string `<=`, as used by `sorted` with a string key. -/
def strLe (a b : String) : Bool := charListLe a.data b.data

/-- The `sorted` key of `AddressBook.__getitem__` (book.py line 89):
`lambda x: x.recipient_name`.  A `None` name is read as the empty string so
that the order is total; the claim below only quantifies over books whose
members carry a string name, where this is exactly Python's comparison. -/
def keyLe (a b : Address) : Bool :=
  strLe (a.recipient_name.getD "") (b.recipient_name.getD "")

theorem charListLe_total (a b : List Char) :
    (charListLe a b || charListLe b a) = true := by
  induction a generalizing b with
  | nil => simp [charListLe]
  | cons x xs ih =>
    cases b with
    | nil => simp [charListLe]
    | cons y ys =>
      by_cases hxy : x = y
      · subst hxy
        simpa [charListLe] using ih ys
      · rcases lt_or_gt_of_ne hxy with h | h
        · simp [charListLe, hxy, h]
        · simp [charListLe, hxy, Ne.symm hxy, h, le_of_lt h, not_lt_of_gt h]

theorem charListLe_trans (a b c : List Char)
    (h1 : charListLe a b = true) (h2 : charListLe b c = true) :
    charListLe a c = true := by
  induction a generalizing b c with
  | nil => simp [charListLe]
  | cons x xs ih =>
    cases b with
    | nil => simp [charListLe] at h1
    | cons y ys =>
      cases c with
      | nil => simp [charListLe] at h2
      | cons z zs =>
        by_cases hxy : x = y <;> by_cases hyz : y = z
        · subst hxy; subst hyz
          simp only [charListLe, if_pos rfl] at h1 h2 ⊢
          exact ih ys zs h1 h2
        · subst hxy
          simp only [charListLe, if_pos rfl, if_neg hyz, decide_eq_true_eq] at h2 ⊢
          simp [hyz, h2]
        · subst hyz
          simp only [charListLe, if_neg hxy, decide_eq_true_eq] at h1 ⊢
          simp [hxy, h1]
        · simp only [charListLe, if_neg hxy, if_neg hyz, decide_eq_true_eq] at h1 h2
          have hxz : x < z := lt_trans h1 h2
          simp [ne_of_lt hxz, hxz, charListLe]

theorem keyLe_total (a b : Address) : (keyLe a b || keyLe b a) = true :=
  charListLe_total _ _

theorem keyLe_trans (a b c : Address) (h1 : keyLe a b = true)
    (h2 : keyLe b c = true) : keyLe a c = true :=
  charListLe_trans _ _ _ h1 h2

/-- `AddressBook.__getitem__` (book.py lines 88-89):
`sorted(list(self.__addresses), key=lambda x: x.recipient_name)[index]`;
an out-of-range index raises, so the result is an `Option`. -/
def AddressBook.indexed_get (b : AddressBook) (i : Nat) : Option Address :=
  (b.addresses.mergeSort keyLe)[i]?

/-- `AddressBook.__setitem__` (book.py lines 91-92): the index is never read;
the body is exactly `self.__addresses.add(address)`. -/
def AddressBook.indexed_set (b : AddressBook) (i : Nat) (a : Address) :
    AddressBook :=
  if addrMem a b.addresses then b
  else ⟨b.book_holder_name, b.book_holder_id, b.addresses ++ [a]⟩

/-- C4: for a valid index `i`, `indexed_get i` returns the `i`-th element of
a sorted-by-recipient-name permutation of the members (in particular it
returns an address, not an error); and `indexed_set` ignores its index
entirely and has exactly the effect of `add_address`. -/
theorem indexed_get_sorted_and_indexed_set_adds (b : AddressBook) (i : Nat)
    (hr : ∀ a ∈ b.addresses, a.recipient_name ≠ none) (h : i < b.count) :
    (∃ l : List Address, l.Perm b.addresses ∧
      l.Pairwise (fun x y => keyLe x y = true) ∧
      b.indexed_get i = l[i]? ∧ ∃ a : Address, b.indexed_get i = some a) ∧
    (∀ (j k : Nat) (a : Address),
      b.indexed_set j a = b.add_address a ∧
      b.indexed_set j a = b.indexed_set k a) := by
  constructor
  · refine ⟨b.addresses.mergeSort keyLe, List.mergeSort_perm _ _,
      List.sorted_mergeSort keyLe_trans
        (fun x y => keyLe_total x y) b.addresses, rfl, ?_⟩
    have hlen : (b.addresses.mergeSort keyLe).length = b.count :=
      List.length_mergeSort ..
    have hi : i < (b.addresses.mergeSort keyLe).length := hlen ▸ h
    exact ⟨(b.addresses.mergeSort keyLe).get ⟨i, hi⟩,
      List.getElem?_eq_getElem hi⟩
  · intro j k a
    exact ⟨rfl, rfl⟩

/-- A concrete two-member book for the C4 witness. -/
def bookW : AddressBook :=
  (AddressBook.init.add_address
      (Address.init "Bob" none none none none none none none)).add_address
    (Address.init "Alice" none none none none none none none)

/-- C4 witness: the two-member book at index 0. -/
theorem indexed_get_sorted_and_indexed_set_adds_witness :
    (∃ l : List Address, l.Perm bookW.addresses ∧
      l.Pairwise (fun x y => keyLe x y = true) ∧
      bookW.indexed_get 0 = l[0]? ∧
      ∃ a : Address, bookW.indexed_get 0 = some a) ∧
    (∀ (j k : Nat) (a : Address),
      bookW.indexed_set j a = bookW.add_address a ∧
      bookW.indexed_set j a = bookW.indexed_set k a) :=
  indexed_get_sorted_and_indexed_set_adds bookW 0 (by decide) (by decide)

/-- The `JsonEncoder` step of `to_file` (book.py lines 15-19 and 122-123)
applied to the holder name: the `MISSING` sentinel is written as null; a
stored value is written as itself. -/
def encodeName : PyField PyStr → PyStr
  | .missing => none
  | .val v => v

/-- The `JsonEncoder` step applied to the holder id. -/
def encodeId : PyField (Option Int) → Option Int
  | .missing => none
  | .val v => v

/-- `AddressBook.to_file` (book.py lines 109-123) composed with the read-back
of the written JSON: `json.dump(self.to_dict(), file, cls=JsonEncoder)` —
`to_dict` (book.py lines 94-107) paired with the encoder that turns the
`MISSING` sentinel into null.  The result is the parsed contents of the file
at the target path. -/
def AddressBook.to_file (b : AddressBook) : AddressBookDict :=
  ⟨encodeName b.book_holder_name, encodeId b.book_holder_id,
   b.addresses.map Address.to_dict⟩

/-- A concrete book whose one address has an empty-string optional field. -/
def bookE : AddressBook :=
  ⟨.val (some "Holder"), .val (some 1),
   [⟨some "Ritik", some "", none, none, none, none, none, none⟩]⟩

/-- C5 counterexample: the claim fails as stated.  For the freshly
constructed book the reloaded holder name is Python `None`, not the original
`MISSING` sentinel (so not identical); and for `bookE` the reloaded address
collection is not set-equal to the original — its sole member (empty string
normalized to null on write) is value-equal to no original member. -/
theorem to_file_from_file_not_identity :
    (AddressBook.from_file (some AddressBook.init.to_file)).book_holder_name ≠
      AddressBook.init.book_holder_name ∧
    ((AddressBook.from_file (some bookE.to_file)).addresses.all
      (fun x => addrMem x bookE.addresses)) = false := by
  exact ⟨by decide, by decide⟩

/-- No optional field holds the empty string (so the `or None` write-time
normalization leaves the address unchanged). -/
def noEmptyOptional (a : Address) : Prop :=
  a.organization_name ≠ some "" ∧ a.building_number ≠ some "" ∧
  a.street_name ≠ some "" ∧ a.apartment_number ≠ some "" ∧
  a.city ≠ some "" ∧ a.state ≠ some "" ∧ a.postal_code ≠ some ""

instance (a : Address) : Decidable (noEmptyOptional a) := by
  unfold noEmptyOptional
  infer_instance

theorem orNone_eq_of_ne_empty (x : PyStr) (h : x ≠ some "") :
    orNone x = x := by
  cases x with
  | none => rfl
  | some s =>
    have hs : s ≠ "" := fun he => h (by rw [he])
    simp [orNone, hs]

theorem from_dict_to_dict_eq_self (a : Address) (h : noEmptyOptional a) :
    Address.from_dict (Address.to_dict a) = a := by
  obtain ⟨h1, h2, h3, h4, h5, h6, h7⟩ := h
  cases a
  simp_all [Address.from_dict, Address.to_dict, Address.json,
    orNone_eq_of_ne_empty]

theorem foldl_add_of_pairwise (n : PyField PyStr) (i : PyField (Option Int))
    (l : List Address) :
    ∀ acc : List Address,
      (∀ x ∈ acc, ∀ y ∈ l, addrEq x y = false) →
      l.Pairwise (fun x y => addrEq x y = false) →
      l.foldl (fun (bk : AddressBook) (a : Address) => bk.add_address a)
          ⟨n, i, acc⟩ = (⟨n, i, acc ++ l⟩ : AddressBook) := by
  induction l with
  | nil => intro acc _ _; simp
  | cons a as ih =>
    intro acc hacc hl
    have hmem : addrMem a acc = false := by
      simp only [addrMem, List.any_eq_false, decide_eq_true_eq]
      intro x hx
      simp [hacc x hx a (by simp)]
    have hstep : AddressBook.add_address ⟨n, i, acc⟩ a =
        ⟨n, i, acc ++ [a]⟩ := by
      simp [AddressBook.add_address, hmem]
    have hacc2 : ∀ x ∈ acc ++ [a], ∀ y ∈ as, addrEq x y = false := by
      intro x hx y hy
      rcases List.mem_append.mp hx with hx1 | hx2
      · exact hacc x hx1 y (by simp [hy])
      · have : x = a := by simpa using hx2
        subst this
        exact (List.pairwise_cons.mp hl).1 y hy
    calc (a :: as).foldl (fun (bk : AddressBook) (a : Address) =>
            bk.add_address a) ⟨n, i, acc⟩
        = as.foldl (fun (bk : AddressBook) (a : Address) => bk.add_address a)
            ⟨n, i, acc ++ [a]⟩ := by
          simp [hstep]
      _ = (⟨n, i, (acc ++ [a]) ++ as⟩ : AddressBook) :=
          ih (acc ++ [a]) hacc2 (List.pairwise_cons.mp hl).2
      _ = (⟨n, i, acc ++ a :: as⟩ : AddressBook) := by simp

/-- C5 (amended): for a book whose holder name and id have been set (are not
the `MISSING` sentinel), whose members are pairwise value-distinct (the
`set` invariant) and none of whose members carries an empty-string optional
field, `to_file` followed by `from_file` reconstructs the holder name, the
holder id and the address collection exactly (here even in the same member
order, hence equal as a set). -/
theorem to_file_from_file_roundtrip (b : AddressBook)
    (hn : b.book_holder_name ≠ PyField.missing)
    (hi : b.book_holder_id ≠ PyField.missing)
    (hnorm : ∀ a ∈ b.addresses, noEmptyOptional a)
    (hdist : b.addresses.Pairwise (fun x y => addrEq x y = false)) :
    (AddressBook.from_file (some b.to_file)).book_holder_name =
        b.book_holder_name ∧
    (AddressBook.from_file (some b.to_file)).book_holder_id =
        b.book_holder_id ∧
    (AddressBook.from_file (some b.to_file)).addresses = b.addresses := by
  obtain ⟨nv, hnv⟩ : ∃ v, b.book_holder_name = .val v := by
    cases hb : b.book_holder_name with
    | missing => exact absurd hb hn
    | val v => exact ⟨v, rfl⟩
  obtain ⟨iv, hiv⟩ : ∃ v, b.book_holder_id = .val v := by
    cases hb : b.book_holder_id with
    | missing => exact absurd hb hi
    | val v => exact ⟨v, rfl⟩
  have hfold : AddressBook.from_file (some b.to_file) =
      b.addresses.foldl (fun bk a => bk.add_address a)
        ⟨.val (encodeName b.book_holder_name),
         .val (encodeId b.book_holder_id), []⟩ := by
    simp only [AddressBook.from_file, AddressBook.to_file, List.foldl_map]
    have hcongr : ∀ (bk : AddressBook) (a : Address), a ∈ b.addresses →
        bk.add_address (Address.from_dict (Address.to_dict a)) =
          bk.add_address a := by
      intro bk a ha
      rw [from_dict_to_dict_eq_self a (hnorm a ha)]
    exact List.foldl_ext _ _ _ hcongr
  rw [hfold,
    foldl_add_of_pairwise _ _ b.addresses [] (by intro x hx; simp at hx) hdist]
  simp [hnv, hiv, encodeName, encodeId]

/-- A concrete settled book for the C5 witness. -/
def bookN : AddressBook :=
  ⟨.val (some "John Doe"), .val (some 1),
   [Address.init "Ritik" none none none none none none none]⟩

/-- C5 witness: the amended round trip at the concrete book `bookN`. -/
theorem to_file_from_file_roundtrip_witness :
    (AddressBook.from_file (some bookN.to_file)).book_holder_name =
        bookN.book_holder_name ∧
    (AddressBook.from_file (some bookN.to_file)).book_holder_id =
        bookN.book_holder_id ∧
    (AddressBook.from_file (some bookN.to_file)).addresses = bookN.addresses :=
  to_file_from_file_roundtrip bookN (by decide) (by decide) (by decide)
    (by simp [bookN])
